import Mathlib

/-!
Shallow embedding of the `dyngo` crate (src/lib.rs): a single-slot storage
cell (`Slot`) backed by a pluggable storage strategy (`Container`), filled
at most meaningfully once and unlocked with a zero-size `Proof`.

Modelling choices:
* Rust's `Option<T>` backing (the checked strategy, `SafeSlot`) is embedded
  as Lean's `Option T`; the `MaybeUninit<T>` backing (the unchecked
  strategy, `LeakySlot`) as a two-state inductive `MaybeUninit T`
  (`uninit` / `init v`).
* `unpack` is fallible in the source (the checked `expect` panics on
  `None`; the unchecked `assume_init` on uninitialized memory is undefined
  behavior), so it is embedded as `Except String T`, the error carrying
  the panic message, respectively a marker string for the UB case.
* Rust drops values implicitly; those destructor calls are made explicit
  as natural-number drop counts: `fill` returns how many old values it
  dropped, and `dropGlue` says how many stored values are dropped when the
  container itself is dropped. `*self = Some(val)` drops the overwritten
  value (1 when the option was `Some`), `MaybeUninit::write` never drops,
  `Option`'s drop glue drops the contained value when present, and
  `MaybeUninit` has no drop glue at all.
* The brand lifetime `'id` and the `PhantomData` fields are zero-size,
  compile-time-only data with no runtime content, so the embedded `Slot`
  carries only its `contents` and the embedded `Proof` is a unit-like
  structure.
-/

/-- Embedding of `core::mem::MaybeUninit<T>`: either uninitialized memory
or an initialized value. -/
inductive MaybeUninit (T : Type) where
  | uninit : MaybeUninit T
  | init (val : T) : MaybeUninit T
deriving DecidableEq, Repr

/-- Embedding of the `Container<T>` trait (src/lib.rs:190-202): the
capability set of a single-value storage strategy, as a record of
operations over a carrier type `C`.  `fill` additionally reports how many
previously stored values it dropped, and `dropGlue` how many stored values
are dropped when the container goes out of scope, making Rust's implicit
destructor calls explicit. -/
structure Container (C : Type) (T : Type) where
  empty : C
  fill : C → T → C × Nat
  unpack : C → Except String T
  dropGlue : C → Nat

/-- Embedding of `unsafe impl<T> Container<T> for Option<T>`
(src/lib.rs:205-217): the checked strategy.  `empty` is `None`;
`fill` is `*self = Some(val)`, which drops the overwritten value when one
is present; `unpack` is `self.expect("trying to unpack None Container")`,
a panic on `None`; `Option`'s drop glue drops the stored value when
present. -/
def optionContainer (T : Type) : Container (Option T) T :=
  ⟨Option.none,
   fun c v => (Option.some v, if c.isSome then 1 else 0),
   fun c => match c with
     | Option.some v => Except.ok v
     | Option.none => Except.error "trying to unpack None Container",
   fun c => if c.isSome then 1 else 0⟩

/-- Embedding of `unsafe impl<T> Container<T> for MaybeUninit<T>`
(src/lib.rs:220-233): the unchecked strategy.  `empty` is
`MaybeUninit::uninit()`; `fill` is `self.write(val)`, which overwrites
without inspecting or dropping the previous contents; `unpack` is
`self.assume_init()`, undefined behavior on uninitialized contents
(marked by the error string); `MaybeUninit` has no drop glue. -/
def maybeUninitContainer (T : Type) : Container (MaybeUninit T) T :=
  ⟨MaybeUninit.uninit,
   fun _ v => (MaybeUninit.init v, 0),
   fun c => match c with
     | MaybeUninit.init v => Except.ok v
     | MaybeUninit.uninit =>
         Except.error "undefined behavior: assume_init on uninitialized memory",
   fun _ => 0⟩

/-- Embedding of `struct Slot<'id, T, C>` (src/lib.rs:117-124): the
runtime content is only the `contents : C` field; `_value : PhantomData<T>`
and `_lifetime : Invariant<'id>` are zero-size. -/
structure Slot (C : Type) (T : Type) where
  contents : C

/-- Embedding of `struct Proof<'id>` (src/lib.rs:144): a zero-size
capability; its only field `Invariant<'id>` is compile-time data. -/
structure Proof where

/-- Embedding of `Slot::with` (src/lib.rs:151-157): build a fresh `Slot`
whose contents are `C::empty()` and apply the scope function to it,
returning its result.  (`with` is a Lean keyword, hence the prime.) -/
def Slot.with' {C T R : Type} (cont : Container C T) (f : Slot C T → R) : R :=
  f ⟨cont.empty⟩

/-- Embedding of `Slot::fill` (src/lib.rs:166-169): store `val` through
the strategy's `fill` and mint a `Proof`.  State passing replaces `&mut`:
the result is the updated slot, the proof, and the number of old values
dropped by the strategy's `fill`. -/
def Slot.fill {C T : Type} (cont : Container C T) (s : Slot C T) (val : T) :
    Slot C T × Proof × Nat :=
  let r := cont.fill s.contents val
  (⟨r.1⟩, ⟨⟩, r.2)

/-- Embedding of `Slot::unlock` (src/lib.rs:178-181): consume the slot and
return `self.contents.unpack()`.  The proof argument is not inspected
(`_proof` in the source). -/
def Slot.unlock {C T : Type} (cont : Container C T) (s : Slot C T)
    (_proof : Proof) : Except String T :=
  cont.unpack s.contents

/-- Run a sequence of `fill`s on a container, starting from `empty`,
keeping only the final contents. -/
def fillAll {C T : Type} (cont : Container C T) (vs : List T) : C :=
  vs.foldl (fun c v => (cont.fill c v).1) cont.empty

/-- Run a sequence of `fill`s from an arbitrary contents/drop-count pair,
accumulating the drops reported by each `fill`. -/
def runFillsFrom {C T : Type} (cont : Container C T) (start : C × Nat)
    (vs : List T) : C × Nat :=
  vs.foldl (fun acc v => let r := cont.fill acc.1 v; (r.1, acc.2 + r.2)) start

/-- Run a sequence of `fill`s on a fresh container, accumulating drops. -/
def runFills {C T : Type} (cont : Container C T) (vs : List T) : C × Nat :=
  runFillsFrom cont (cont.empty, 0) vs

/-- Total number of values dropped when a fresh container is filled with
`vs` in order and then itself dropped (never unlocked): the drops during
the fills plus the container's own drop glue. -/
def dropAfterFills {C T : Type} (cont : Container C T) (vs : List T) : Nat :=
  (runFills cont vs).2 + cont.dropGlue (runFills cont vs).1

/-- Layout model, following Rust's documented layout guarantees:
`u64` is 8 bytes. -/
def sizeOfU64 : Nat := 8

/-- `PhantomData<_>` is a guaranteed zero-size type. -/
def sizeOfPhantomData : Nat := 0

/-- `struct Invariant<'id>(PhantomData<...>)` (src/lib.rs:108) wraps only
a `PhantomData`, hence is zero-size. -/
def sizeOfInvariant : Nat := sizeOfPhantomData

/-- `MaybeUninit<T>` is guaranteed to have the same size as `T`. -/
def sizeOfMaybeUninit (sizeT : Nat) : Nat := sizeT

/-- `Slot<'id, T, C>` holds `contents : C` plus two zero-size fields
(`PhantomData<T>` and `Invariant<'id>`). -/
def sizeOfSlot (sizeC : Nat) : Nat := sizeC + sizeOfPhantomData + sizeOfInvariant

/-- `LeakySlot<'id, T> = Slot<'id, T, MaybeUninit<T>>` (src/lib.rs:139). -/
def sizeOfLeakySlot (sizeT : Nat) : Nat := sizeOfSlot (sizeOfMaybeUninit sizeT)

theorem foldl_fill_some {T : Type} (vs : List T) (w : T) :
    ∃ u, vs.foldl (fun c v => ((optionContainer T).fill c v).1) (Option.some w)
      = Option.some u := by
  induction vs generalizing w with
  | nil => exact ⟨w, rfl⟩
  | cons v rest ih => exact ih v

theorem fillAll_append_last {C T : Type} (cont : Container C T) (vs : List T)
    (v : T) :
    fillAll cont (vs ++ [v]) = (cont.fill (fillAll cont vs) v).1 := by
  simp [fillAll, List.foldl_append]

theorem runFillsFrom_drops_option {T : Type} (vs : List T) (c : Option T)
    (n : Nat) :
    (runFillsFrom (optionContainer T) (c, n) vs).2
      + (optionContainer T).dropGlue (runFillsFrom (optionContainer T) (c, n) vs).1
    = n + (optionContainer T).dropGlue c + vs.length := by
  induction vs generalizing c n with
  | nil => simp [runFillsFrom, optionContainer]
  | cons v rest ih =>
      have h := ih (Option.some v) (n + (if c.isSome then 1 else 0))
      simp [runFillsFrom, optionContainer] at h ⊢
      omega

/-- C1: for every value `v` of any element type `T` and for both storage
strategies (the checked `Option`-based container and the unchecked
`MaybeUninit`-based container), creating a slot via `Slot::with`, filling
it with `v`, and unlocking with the proof returned by that fill yields
exactly `v`. -/
theorem c1_fill_unlock_roundtrip (T : Type) (v : T) :
    Slot.with' (optionContainer T)
      (fun s =>
        let r := Slot.fill (optionContainer T) s v
        Slot.unlock (optionContainer T) r.1 r.2.1) = Except.ok v
    ∧ Slot.with' (maybeUninitContainer T)
      (fun s =>
        let r := Slot.fill (maybeUninitContainer T) s v
        Slot.unlock (maybeUninitContainer T) r.1 r.2.1) = Except.ok v :=
  ⟨rfl, rfl⟩

/-- C3: the checked strategy's `unpack` on the empty state is the defined
panic `trying to unpack None Container`, on a filled state it returns the
value, and after any sequence of fills from creation it succeeds exactly
when at least one fill has happened. -/
theorem c3_checked_unpack_panics_iff_empty (T : Type) :
    ((optionContainer T).unpack Option.none
        = Except.error "trying to unpack None Container")
    ∧ (∀ v : T, (optionContainer T).unpack (Option.some v) = Except.ok v)
    ∧ ∀ vs : List T,
        ((optionContainer T).unpack (fillAll (optionContainer T) vs)).isOk = true
          ↔ vs ≠ [] := by
  refine ⟨rfl, fun v => rfl, fun vs => ?_⟩
  cases vs with
  | nil =>
      constructor
      · intro h
        exact absurd h Bool.false_ne_true
      · intro h
        exact absurd rfl h
  | cons v rest =>
      obtain ⟨u, hu⟩ := foldl_fill_some rest v
      have hfill : fillAll (optionContainer T) (v :: rest) = Option.some u := hu
      rw [hfill]
      constructor
      · intro _
        exact List.cons_ne_nil v rest
      · intro _
        rfl

/-- C4: for the checked strategy, any slot on which `fill` ran at least
once (the fill sequence is `vs ++ [v]`) is unlocked without hitting the
defensive panic branch: `unlock` returns a value. -/
theorem c4_unlock_never_fails_after_fill (T : Type) (vs : List T) (v : T) :
    Slot.unlock (optionContainer T)
      ⟨fillAll (optionContainer T) (vs ++ [v])⟩ ⟨⟩ = Except.ok v := by
  show (optionContainer T).unpack (fillAll (optionContainer T) (vs ++ [v]))
      = Except.ok v
  rw [fillAll_append_last]
  rfl

/-- C5: filling a checked-strategy slot with `v1` then `v2` and unlocking
returns `v2`; the first fill drops nothing and the second fill drops
exactly one value (the resource owned by `v1`), at that moment. -/
theorem c5_checked_double_fill (T : Type) (v1 v2 : T) :
    let s0 : Slot (Option T) T := ⟨(optionContainer T).empty⟩
    let f1 := Slot.fill (optionContainer T) s0 v1
    let f2 := Slot.fill (optionContainer T) f1.1 v2
    f1.2.2 = 0 ∧ f2.2.2 = 1
      ∧ Slot.unlock (optionContainer T) f2.1 f2.2.1 = Except.ok v2 :=
  ⟨rfl, rfl, rfl⟩

/-- C6: the unchecked strategy's `fill` writes the new value without
inspecting the prior state — on every prior contents `c` the result is
exactly the initialized new value — and drops zero old values, so an
already-present value's destructor is skipped (a leak, not corruption,
and no double-construction). -/
theorem c6_unchecked_fill_skips_drop (T : Type) (c : MaybeUninit T) (v : T) :
    (maybeUninitContainer T).fill c v = (MaybeUninit.init v, 0) := rfl

/-- C7: `Slot::with` constructs a slot whose contents are the strategy's
`empty()` and returns exactly the scope function's result on it, for every
scope function and every container strategy; the two provided strategies'
empty states are `None` and `uninit`. -/
theorem c7_with_applies_scope_fn_to_empty (C T R : Type) (cont : Container C T)
    (f : Slot C T → R) :
    Slot.with' cont f = f ⟨cont.empty⟩
    ∧ (optionContainer T).empty = Option.none
    ∧ (maybeUninitContainer T).empty = MaybeUninit.uninit :=
  ⟨rfl, rfl, rfl⟩

/-- C8: dropping a checked-strategy slot that was filled and never
unlocked releases each stored value exactly once: after any fill sequence
`vs` the total release count (drops during fills plus the slot's own drop
glue) is exactly `vs.length`; in particular one fill gives one release and
two fills give two releases in total. -/
theorem c8_checked_drop_no_leak_no_double (T : Type) (vs : List T)
    (v1 v2 : T) :
    dropAfterFills (optionContainer T) vs = vs.length
    ∧ dropAfterFills (optionContainer T) [v1] = 1
    ∧ dropAfterFills (optionContainer T) [v1, v2] = 2 := by
  refine ⟨?_, rfl, rfl⟩
  have h := runFillsFrom_drops_option vs (Option.none) 0
  simpa [dropAfterFills, runFills, optionContainer] using h

/-- C9: the unchecked strategy's slot is zero-overhead: its size equals
the size of its element type for every element size, and concretely a
`LeakySlot` over `u64` measures exactly 8 bytes. -/
theorem c9_leaky_slot_zero_overhead :
    (∀ sizeT : Nat, sizeOfLeakySlot sizeT = sizeT)
    ∧ sizeOfLeakySlot sizeOfU64 = 8 :=
  ⟨fun _ => rfl, rfl⟩

/-- C10: for the unchecked `MaybeUninit`-based strategy as well, filling a
slot with `v1` and then `v2` and unlocking returns `v2`: the last value
written wins. -/
theorem c10_unchecked_last_write_wins (T : Type) (v1 v2 : T) :
    (let s0 : Slot (MaybeUninit T) T := ⟨(maybeUninitContainer T).empty⟩
     let f1 := Slot.fill (maybeUninitContainer T) s0 v1
     let f2 := Slot.fill (maybeUninitContainer T) f1.1 v2
     Slot.unlock (maybeUninitContainer T) f2.1 f2.2.1) = Except.ok v2 := rfl
